import Mathlib

/-!
Verification of the asa-mcp Apple Search Ads MCP server against its
specification.  The TypeScript source is shallowly embedded: pure fragments
become Lean functions, the effectful parts (the module-level token cache,
the fetch calls) become explicit state passing with an oracle argument for
the upstream HTTP reply and a counter of performed token-endpoint calls.
Times are milliseconds since epoch as natural numbers, mirroring Date.now().
-/

namespace AsaMcp

/-! ## REST client response handling (src/client.ts) -/

/-- Entry of the structured error list in an API response envelope
(interface ApiError in src/client.ts). -/
structure ApiError where
  messageCode : String
  message : String
  field : Option String
deriving DecidableEq, Repr

/-- Shape of the error property of a parsed JSON envelope, as the
handleResponse classification in src/client.ts distinguishes it:
absent covers a missing, null or otherwise falsy error property;
list is the Array.isArray branch; obj the plain-object branch (an empty
string models both a missing and an empty messageCode or message, matching
the JS falsy check with the logical-or operator); prim a truthy primitive,
carrying its String() rendering. -/
inductive ErrField where
  | absent
  | list (entries : List ApiError)
  | obj (messageCode : String) (message : String) (stringified : String)
  | prim (shown : String)
deriving DecidableEq, Repr

/-- A parsed response envelope (interface ApiResponse in src/client.ts);
the data payload is kept abstract as an optional string, none modelling a
null or absent data property. -/
structure Envelope where
  data : Option String
  error : ErrField
deriving DecidableEq, Repr

/-- Formatting of one structured error entry inside handleResponse:
the map over json.error in src/client.ts line 145.  The field segment is
omitted when the field property is absent or falsy (empty). -/
def formatApiError (e : ApiError) : String :=
  e.messageCode ++ ": " ++ e.message ++
    (match e.field with
     | none => ""
     | some f => if f = "" then "" else " (field: " ++ f ++ ")")

/-- The response.ok predicate of the fetch API: status in the range
200 to 299. -/
def respOk (status : Nat) : Bool :=
  200 ≤ status && status ≤ 299

/-- The error message handleResponse synthesizes for a non-2xx response
whose body parsed to an envelope with the given error property
(src/client.ts lines 142 to 155). -/
def errorMessageFor (status : Nat) (statusText : String) (text : String)
    (e : ErrField) : String :=
  match e with
  | .absent =>
      "HTTP " ++ toString status ++ ": " ++ statusText ++ " - Response: " ++ text
  | .list entries =>
      String.intercalate "; " (entries.map formatApiError)
  | .obj mc m stringified =>
      (if mc = "" then "ERROR" else mc) ++ ": " ++ (if m = "" then stringified else m)
  | .prim shown => shown

/-- handleResponse of src/client.ts (lines 126 to 160), shared by get, post,
put and delete.  Inputs are the response status, status text and raw body
text, together with the outcome of JSON.parse on that text (none models a
parse failure).  An empty body returns the null-data envelope before any
other check; a non-empty body that fails to parse raises the invalid-JSON
error; a non-2xx status raises the classified message; otherwise the parsed
envelope is returned. -/
def handleResponse (status : Nat) (statusText : String) (text : String)
    (parsed : Option Envelope) : Except String Envelope :=
  if text = "" then
    .ok { data := none, error := .absent }
  else
    match parsed with
    | none => .error ("Invalid JSON response: " ++ text)
    | some json =>
      if respOk status then
        .ok json
      else
        .error (errorMessageFor status statusText text json.error)

/-- The concrete structured error entry used by the specification's
response-classification example. -/
def invalidArgEntry : ApiError :=
  { messageCode := "INVALID_ARG", message := "bad field", field := some "name" }

/-- The concrete JSON error body of the specification's
response-classification example, as raw text. -/
def invalidArgBody : String :=
  "\x7b\"error\":[\x7b\"messageCode\":\"INVALID_ARG\",\"message\":\"bad field\",\"field\":\"name\"\x7d]\x7d"

end AsaMcp

namespace AsaMcp

/-! ## Claims about response handling -/

/-- C10: for every response whose body text is empty, handleResponse
returns the null-data envelope without inspecting the status code, so even
a non-2xx response with an empty body yields a successful envelope. -/
theorem handleResponse_empty_body (status : Nat) (statusText : String)
    (parsed : Option Envelope) :
    handleResponse status statusText "" parsed =
      .ok { data := none, error := .absent } := by
  simp [handleResponse]

/-- Counterexample to C1 as stated: a 403 Forbidden response with an empty
body is returned as a successful envelope; no error with the fallback
message is raised. -/
theorem handleResponse_403_empty_counterexample :
    handleResponse 403 "Forbidden" "" none =
        .ok { data := none, error := .absent } ∧
      handleResponse 403 "Forbidden" "" none ≠
        .error "HTTP 403: Forbidden - Response: " := by
  constructor
  · simp [handleResponse]
  · simp [handleResponse]

/-- C1 as amended: for every non-2xx response whose body is non-empty, the
client raises an error and never returns a successful envelope; when the
body moreover parses to an envelope without an error property, the message
is the fallback format with the raw body appended. -/
theorem handleResponse_non2xx_raises (status : Nat) (statusText : String)
    (text : String) (parsed : Option Envelope)
    (hok : respOk status = false) (htext : text ≠ "") :
    (∃ msg, handleResponse status statusText text parsed = .error msg) ∧
      (∀ env, parsed = some env → env.error = .absent →
        handleResponse status statusText text parsed =
          .error ("HTTP " ++ toString status ++ ": " ++ statusText ++
            " - Response: " ++ text)) := by
  constructor
  · cases parsed with
    | none =>
        exact ⟨"Invalid JSON response: " ++ text, by simp [handleResponse, htext]⟩
    | some env =>
        exact ⟨errorMessageFor status statusText text env.error,
          by simp [handleResponse, htext, hok]⟩
  · intro env hp he
    subst hp
    simp [handleResponse, htext, hok, errorMessageFor, he]

/-- Witness for the amended C1 at a concrete input: status 403 with the
non-empty body "[]" parsing to an envelope with no error property. -/
theorem handleResponse_non2xx_raises_witness :
    (∃ msg, handleResponse 403 "Forbidden" "[]"
        (some { data := none, error := .absent }) = .error msg) ∧
      (∀ env, (some { data := none, error := .absent } : Option Envelope) =
          some env → env.error = .absent →
        handleResponse 403 "Forbidden" "[]"
            (some { data := none, error := .absent }) =
          .error ("HTTP " ++ toString 403 ++ ": " ++ "Forbidden" ++
            " - Response: " ++ "[]")) :=
  handleResponse_non2xx_raises 403 "Forbidden" "[]"
    (some { data := none, error := .absent }) (by decide) (by decide)

/-- C5: for every non-2xx response whose parsed body carries a structured
error list, the raised message is the entries formatted as
messageCode: message (field: field), the field segment omitted when absent,
joined with a semicolon separator; in particular the single-entry list for
INVALID_ARG on field name yields exactly that formatted message. -/
theorem handleResponse_structured_errors (status : Nat) (statusText : String)
    (text : String) (d : Option String) (entries : List ApiError)
    (hok : respOk status = false) (htext : text ≠ "") :
    handleResponse status statusText text
        (some { data := d, error := .list entries }) =
      .error (String.intercalate "; " (entries.map formatApiError)) ∧
      handleResponse status statusText text
        (some { data := d, error := .list [invalidArgEntry] }) =
      .error "INVALID_ARG: bad field (field: name)" := by
  constructor
  · simp [handleResponse, htext, hok, errorMessageFor]
  · simp [handleResponse, htext, hok, errorMessageFor, formatApiError,
      invalidArgEntry]
    decide

/-- Witness for C5 at the concrete input of the claim: status 400 with the
exact JSON error body from the specification. -/
theorem handleResponse_structured_errors_witness :
    handleResponse 400 "Bad Request" invalidArgBody
        (some { data := none, error := .list [invalidArgEntry] }) =
      .error (String.intercalate "; " ([invalidArgEntry].map formatApiError)) ∧
      handleResponse 400 "Bad Request" invalidArgBody
        (some { data := none, error := .list [invalidArgEntry] }) =
      .error "INVALID_ARG: bad field (field: name)" :=
  handleResponse_structured_errors 400 "Bad Request" invalidArgBody
    none [invalidArgEntry] (by decide) (by decide)

end AsaMcp

namespace AsaMcp

/-! ## OAuth token management (src/auth.ts)

The module-level mutable cachedToken becomes an explicit Option CachedToken
threaded through the functions.  The fetch of the token endpoint becomes an
oracle argument describing the upstream reply; each step reports how many
token-endpoint calls it performed. -/

/-- Parsed body of a successful token-endpoint reply
(interface TokenResponse in src/auth.ts); expires_in is in seconds. -/
structure TokenResponse where
  access_token : String
  token_type : String
  expires_in : Nat
deriving DecidableEq, Repr

/-- The cached token (interface CachedToken in src/auth.ts); expiresAt is an
absolute time in milliseconds. -/
structure CachedToken where
  accessToken : String
  expiresAt : Nat
deriving DecidableEq, Repr

/-- Upstream reply of the token endpoint as observed through fetch:
either an ok response with parsed JSON body, or a non-2xx response carrying
its status and body text. -/
inductive TokenEndpointReply where
  | success (tr : TokenResponse)
  | failure (status : Nat) (errorText : String)
deriving DecidableEq, Repr

/-- fetchAccessToken of src/auth.ts (lines 57 to 81): a non-ok reply raises
the authentication error carrying the status and the upstream body text;
an ok reply returns the parsed token response. -/
def fetchAccessToken (reply : TokenEndpointReply) : Except String TokenResponse :=
  match reply with
  | .failure status errorText =>
      .error ("Failed to fetch access token: " ++ toString status ++ " " ++ errorText)
  | .success tr => .ok tr

/-- Outcome of one getAccessToken step: the returned token or raised error,
the cache contents after the step, and the number of token-endpoint calls
the step performed. -/
structure AuthStep where
  result : Except String String
  cachedToken : Option CachedToken
  tokenEndpointCalls : Nat
deriving Repr

/-- The five-minute safety margin of src/auth.ts line 90, in milliseconds. -/
def tokenSafetyMarginMs : Nat := 5 * 60 * 1000

/-- The fetch-new-token tail of getAccessToken (src/auth.ts lines 94 to 102):
on failure the error propagates and the cache is left as it was; on success
the cache is overwritten with the fresh token whose absolute expiry is
now plus expires_in seconds, and that token is returned. -/
def exchangeToken (prev : Option CachedToken) (now : Nat)
    (reply : TokenEndpointReply) : AuthStep :=
  match fetchAccessToken reply with
  | .error e =>
      { result := .error e, cachedToken := prev, tokenEndpointCalls := 1 }
  | .ok tr =>
      let fresh : CachedToken :=
        { accessToken := tr.access_token, expiresAt := now + tr.expires_in * 1000 }
      { result := .ok fresh.accessToken, cachedToken := some fresh,
        tokenEndpointCalls := 1 }

/-- getAccessToken of src/auth.ts (lines 86 to 103): the cached token is
returned without any network call when it expires strictly more than five
minutes from now; otherwise a fresh exchange runs. -/
def getAccessToken (cachedToken : Option CachedToken) (now : Nat)
    (reply : TokenEndpointReply) : AuthStep :=
  match cachedToken with
  | some ct =>
      if now + tokenSafetyMarginMs < ct.expiresAt then
        { result := .ok ct.accessToken, cachedToken := some ct,
          tokenEndpointCalls := 0 }
      else
        exchangeToken (some ct) now reply
  | none => exchangeToken none now reply

/-- clearTokenCache of src/auth.ts (lines 108 to 110). -/
def clearTokenCache (_prev : Option CachedToken) : Option CachedToken := none

end AsaMcp

namespace AsaMcp

/-! ## Claims about the token cache -/

/-- C3: a cached token expiring four minutes from now is treated as invalid
and triggers a token-endpoint call; one expiring six minutes from now is
served from the cache with no call; and two immediately successive calls
starting from an empty cache, with a fresh token whose expiry is far in the
future, perform exactly one token-endpoint call in total. -/
theorem getAccessToken_safety_margin_behaviour (tok : String) (now : Nat)
    (reply : TokenEndpointReply) (tr tr2 : TokenResponse)
    (hfar : 300 < tr.expires_in) :
    (getAccessToken (some { accessToken := tok, expiresAt := now + 4 * 60 * 1000 })
        now reply).tokenEndpointCalls = 1 ∧
      getAccessToken (some { accessToken := tok, expiresAt := now + 6 * 60 * 1000 })
        now reply =
        { result := .ok tok,
          cachedToken := some { accessToken := tok, expiresAt := now + 6 * 60 * 1000 },
          tokenEndpointCalls := 0 } ∧
      (getAccessToken none now (.success tr)).tokenEndpointCalls +
        (getAccessToken (getAccessToken none now (.success tr)).cachedToken
          now (.success tr2)).tokenEndpointCalls = 1 := by
  refine ⟨?_, ?_, ?_⟩
  · have h4 : ¬ now + tokenSafetyMarginMs < now + 4 * 60 * 1000 := by
      simp [tokenSafetyMarginMs]
    cases reply <;>
      simp [getAccessToken, exchangeToken, fetchAccessToken, h4]
  · have h6 : now + tokenSafetyMarginMs < now + 6 * 60 * 1000 := by
      simp [tokenSafetyMarginMs]
    simp [getAccessToken, h6]
  · have hfresh : now + tokenSafetyMarginMs < now + tr.expires_in * 1000 := by
      simp [tokenSafetyMarginMs]
      omega
    simp [getAccessToken, exchangeToken, fetchAccessToken, hfresh]

/-- Witness for C3 at a concrete input: cache times over now = 1000 and a
fresh token living 3600 seconds. -/
theorem getAccessToken_safety_margin_behaviour_witness :
    (getAccessToken
        (some { accessToken := "t", expiresAt := 1000 + 4 * 60 * 1000 })
        1000 (.failure 500 "x")).tokenEndpointCalls = 1 ∧
      getAccessToken
        (some { accessToken := "t", expiresAt := 1000 + 6 * 60 * 1000 })
        1000 (.failure 500 "x") =
        { result := .ok "t",
          cachedToken :=
            some { accessToken := "t", expiresAt := 1000 + 6 * 60 * 1000 },
          tokenEndpointCalls := 0 } ∧
      (getAccessToken none 1000
          (.success { access_token := "a", token_type := "Bearer",
                      expires_in := 3600 })).tokenEndpointCalls +
        (getAccessToken
          (getAccessToken none 1000
            (.success { access_token := "a", token_type := "Bearer",
                        expires_in := 3600 })).cachedToken
          1000
          (.success { access_token := "b", token_type := "Bearer",
                      expires_in := 3600 })).tokenEndpointCalls = 1 :=
  getAccessToken_safety_margin_behaviour "t" 1000 (.failure 500 "x")
    { access_token := "a", token_type := "Bearer", expires_in := 3600 }
    { access_token := "b", token_type := "Bearer", expires_in := 3600 }
    (by decide)

/-- Counterexample to C4 as stated: from an empty cache at time 0, an
exchange whose reply grants only 60 seconds of validity returns that token
immediately, with one minute of remaining validity, well under the
five-minute margin. -/
theorem getAccessToken_short_token_counterexample :
    getAccessToken none 0
        (.success { access_token := "tok", token_type := "Bearer",
                    expires_in := 60 }) =
      { result := .ok "tok",
        cachedToken := some { accessToken := "tok", expiresAt := 60000 },
        tokenEndpointCalls := 1 } ∧
      60000 < 0 + tokenSafetyMarginMs := by
  constructor
  · rfl
  · decide

/-- C4 as amended: every token returned by getAccessToken is the stored
cached token, and it has at least five minutes of remaining validity
against its stored expiry, provided every fresh exchange grants at least
300 seconds; a cached token with less remaining validity is never served. -/
theorem getAccessToken_returned_token_validity (c : Option CachedToken)
    (now : Nat) (reply : TokenEndpointReply) (tok : String)
    (hres : (getAccessToken c now reply).result = .ok tok)
    (hfresh : ∀ tr, reply = .success tr → 300 ≤ tr.expires_in) :
    ∃ ct, (getAccessToken c now reply).cachedToken = some ct ∧
      ct.accessToken = tok ∧ now + tokenSafetyMarginMs ≤ ct.expiresAt := by
  cases c with
  | some ct =>
      by_cases h : now + tokenSafetyMarginMs < ct.expiresAt
      · refine ⟨ct, ?_, ?_, ?_⟩
        · simp [getAccessToken, h]
        · have := hres
          simp [getAccessToken, h] at this
          exact this
        · omega
      · cases reply with
        | failure status etext =>
            exfalso
            simp [getAccessToken, h, exchangeToken, fetchAccessToken] at hres
        | success tr =>
            refine ⟨{ accessToken := tr.access_token,
                      expiresAt := now + tr.expires_in * 1000 }, ?_, ?_, ?_⟩
            · simp [getAccessToken, h, exchangeToken, fetchAccessToken]
            · have := hres
              simp [getAccessToken, h, exchangeToken, fetchAccessToken] at this
              exact this
            · have h300 := hfresh tr rfl
              simp [tokenSafetyMarginMs]
              omega
  | none =>
      cases reply with
      | failure status etext =>
          exfalso
          simp [getAccessToken, exchangeToken, fetchAccessToken] at hres
      | success tr =>
          refine ⟨{ accessToken := tr.access_token,
                    expiresAt := now + tr.expires_in * 1000 }, ?_, ?_, ?_⟩
          · simp [getAccessToken, exchangeToken, fetchAccessToken]
          · have := hres
            simp [getAccessToken, exchangeToken, fetchAccessToken] at this
            exact this
          · have h300 := hfresh tr rfl
            simp [tokenSafetyMarginMs]
            omega

/-- Witness for the amended C4 at a concrete input: empty cache, time 0,
a fresh exchange granting 3600 seconds. -/
theorem getAccessToken_returned_token_validity_witness :
    ∃ ct, (getAccessToken none 0
        (.success { access_token := "a", token_type := "Bearer",
                    expires_in := 3600 })).cachedToken = some ct ∧
      ct.accessToken = "a" ∧ 0 + tokenSafetyMarginMs ≤ ct.expiresAt :=
  getAccessToken_returned_token_validity none 0
    (.success { access_token := "a", token_type := "Bearer",
                expires_in := 3600 }) "a" rfl
    (by intro tr h; cases h; decide)

/-- C6: when the token endpoint replies non-2xx, the step leaves the cache
exactly as it was, and whenever the exchange actually ran, the raised error
message carries the HTTP status and the upstream body text. -/
theorem getAccessToken_failure_leaves_cache (c : Option CachedToken)
    (now status : Nat) (etext : String) :
    (getAccessToken c now (.failure status etext)).cachedToken = c ∧
      ((getAccessToken c now (.failure status etext)).tokenEndpointCalls = 1 →
        (getAccessToken c now (.failure status etext)).result =
          .error ("Failed to fetch access token: " ++ toString status ++
            " " ++ etext)) := by
  cases c with
  | some ct =>
      by_cases h : now + tokenSafetyMarginMs < ct.expiresAt
      · simp [getAccessToken, h]
      · simp [getAccessToken, h, exchangeToken, fetchAccessToken]
  | none =>
      simp [getAccessToken, exchangeToken, fetchAccessToken]

/-- Witness for C6 at a concrete input: cache holding an expired token at
time 10, upstream failing with status 500 and body boom. -/
theorem getAccessToken_failure_leaves_cache_witness :
    (getAccessToken (some { accessToken := "old", expiresAt := 5 }) 10
        (.failure 500 "boom")).cachedToken =
      some { accessToken := "old", expiresAt := 5 } ∧
      (getAccessToken (some { accessToken := "old", expiresAt := 5 }) 10
          (.failure 500 "boom")).result =
        .error ("Failed to fetch access token: " ++ toString 500 ++ " " ++ "boom") :=
  ⟨(getAccessToken_failure_leaves_cache
      (some { accessToken := "old", expiresAt := 5 }) 10 500 "boom").1,
    (getAccessToken_failure_leaves_cache
      (some { accessToken := "old", expiresAt := 5 }) 10 500 "boom").2
      (by decide)⟩

/-- C9: after clearTokenCache, a getAccessToken call performs a fresh
token-endpoint exchange unconditionally, whatever the prior cache state,
the current time and the upstream reply. -/
theorem clearCache_then_getAccessToken_exchanges (c : Option CachedToken)
    (now : Nat) (reply : TokenEndpointReply) :
    (getAccessToken (clearTokenCache c) now reply).tokenEndpointCalls = 1 := by
  cases reply <;>
    simp [clearTokenCache, getAccessToken, exchangeToken, fetchAccessToken]

end AsaMcp

namespace AsaMcp

/-! ## Configuration loading from the environment
(src/auth.ts loadAuthConfigFromEnv and src/client.ts createClientFromEnv) -/

/-- The credential set read from the environment (interface AuthConfig in
src/auth.ts). -/
structure AuthConfig where
  clientId : String
  teamId : String
  keyId : String
  privateKeyPath : String
deriving DecidableEq, Repr

/-- Client configuration (interface ApiClientConfig in src/client.ts). -/
structure ApiClientConfig where
  auth : AuthConfig
  orgId : String
deriving DecidableEq, Repr

/-- The five process.env variables the configuration loaders read; none
models an unset variable. -/
structure Env where
  clientId : Option String
  teamId : Option String
  keyId : Option String
  privateKeyPath : Option String
  orgId : Option String
deriving DecidableEq, Repr

/-- JS truthiness of an environment value: unset and the empty string are
falsy, everything else truthy. -/
def envPresent : Option String → Bool
  | none => false
  | some s => !s.isEmpty

/-- Outcome of a configuration-loading step, together with the number of
HTTP calls performed while producing it; the loaders contain no network
operation, so the translation always records zero. -/
structure EnvLoadStep where
  result : Except String AuthConfig
  httpCalls : Nat
deriving Repr

/-- Outcome of client construction from the environment, with the number
of HTTP calls performed. -/
structure ClientCreateStep where
  result : Except String ApiClientConfig
  httpCalls : Nat
deriving Repr

/-- loadAuthConfigFromEnv of src/auth.ts (lines 115 to 135): each variable
is checked in order and the first missing one is reported by name. -/
def loadAuthConfigFromEnv (env : Env) : EnvLoadStep :=
  if !envPresent env.clientId then
    { result := .error "APPLE_ADS_CLIENT_ID environment variable is required",
      httpCalls := 0 }
  else if !envPresent env.teamId then
    { result := .error "APPLE_ADS_TEAM_ID environment variable is required",
      httpCalls := 0 }
  else if !envPresent env.keyId then
    { result := .error "APPLE_ADS_KEY_ID environment variable is required",
      httpCalls := 0 }
  else if !envPresent env.privateKeyPath then
    { result := .error "APPLE_ADS_PRIVATE_KEY_PATH environment variable is required",
      httpCalls := 0 }
  else
    { result := .ok
        { clientId := env.clientId.getD "", teamId := env.teamId.getD "",
          keyId := env.keyId.getD "", privateKeyPath := env.privateKeyPath.getD "" },
      httpCalls := 0 }

/-- The single error message createClientFromEnv raises when any of the
five variables is missing (src/client.ts lines 592 to 598). -/
def missingEnvMessage : String :=
  "Missing required environment variables. Please set: " ++
    "APPLE_ADS_CLIENT_ID, APPLE_ADS_TEAM_ID, APPLE_ADS_KEY_ID, " ++
    "APPLE_ADS_PRIVATE_KEY_PATH, APPLE_ADS_ORG_ID"

/-- createClientFromEnv of src/client.ts (lines 585 to 604): all five
variables must be truthy, otherwise the fixed message listing them all is
raised. -/
def createClientFromEnv (env : Env) : ClientCreateStep :=
  if envPresent env.clientId && envPresent env.teamId && envPresent env.keyId
      && envPresent env.privateKeyPath && envPresent env.orgId then
    { result := .ok
        { auth :=
            { clientId := env.clientId.getD "", teamId := env.teamId.getD "",
              keyId := env.keyId.getD "",
              privateKeyPath := env.privateKeyPath.getD "" },
          orgId := env.orgId.getD "" },
      httpCalls := 0 }
  else
    { result := .error missingEnvMessage, httpCalls := 0 }

end AsaMcp

namespace AsaMcp

/-! ## Claim about configuration errors -/

/-- A non-empty string is not isEmpty. -/
theorem ne_empty_isEmpty_false (s : String) (h : s ≠ "") : s.isEmpty = false := by
  cases hs : s.isEmpty
  · rfl
  · exact absurd ((String.isEmpty_iff s).mp hs) h

/-- C7: for every credential set with exactly one required variable unset,
loadAuthConfigFromEnv fails with the configuration error naming exactly
that variable, createClientFromEnv fails with its message, which spells out
the missing variable's name, and both steps perform zero HTTP calls. -/
theorem config_error_names_missing_field (a b c d e : String)
    (ha : a ≠ "") (hb : b ≠ "") (hc : c ≠ "") (hd : d ≠ "") (he : e ≠ "") :
    (loadAuthConfigFromEnv ⟨none, some b, some c, some d, some e⟩ =
        { result := .error "APPLE_ADS_CLIENT_ID environment variable is required",
          httpCalls := 0 }) ∧
      (loadAuthConfigFromEnv ⟨some a, none, some c, some d, some e⟩ =
        { result := .error "APPLE_ADS_TEAM_ID environment variable is required",
          httpCalls := 0 }) ∧
      (loadAuthConfigFromEnv ⟨some a, some b, none, some d, some e⟩ =
        { result := .error "APPLE_ADS_KEY_ID environment variable is required",
          httpCalls := 0 }) ∧
      (loadAuthConfigFromEnv ⟨some a, some b, some c, none, some e⟩ =
        { result := .error "APPLE_ADS_PRIVATE_KEY_PATH environment variable is required",
          httpCalls := 0 }) ∧
      (createClientFromEnv ⟨none, some b, some c, some d, some e⟩ =
        { result := .error missingEnvMessage, httpCalls := 0 }) ∧
      (createClientFromEnv ⟨some a, none, some c, some d, some e⟩ =
        { result := .error missingEnvMessage, httpCalls := 0 }) ∧
      (createClientFromEnv ⟨some a, some b, none, some d, some e⟩ =
        { result := .error missingEnvMessage, httpCalls := 0 }) ∧
      (createClientFromEnv ⟨some a, some b, some c, none, some e⟩ =
        { result := .error missingEnvMessage, httpCalls := 0 }) ∧
      (createClientFromEnv ⟨some a, some b, some c, some d, none⟩ =
        { result := .error missingEnvMessage, httpCalls := 0 }) ∧
      (∃ p q, missingEnvMessage = p ++ "APPLE_ADS_CLIENT_ID" ++ q) ∧
      (∃ p q, missingEnvMessage = p ++ "APPLE_ADS_TEAM_ID" ++ q) ∧
      (∃ p q, missingEnvMessage = p ++ "APPLE_ADS_KEY_ID" ++ q) ∧
      (∃ p q, missingEnvMessage = p ++ "APPLE_ADS_PRIVATE_KEY_PATH" ++ q) ∧
      (∃ p q, missingEnvMessage = p ++ "APPLE_ADS_ORG_ID" ++ q) := by
  have ha2 : a.isEmpty = false := ne_empty_isEmpty_false a ha
  have hb2 : b.isEmpty = false := ne_empty_isEmpty_false b hb
  have hc2 : c.isEmpty = false := ne_empty_isEmpty_false c hc
  have hd2 : d.isEmpty = false := ne_empty_isEmpty_false d hd
  have he2 : e.isEmpty = false := ne_empty_isEmpty_false e he
  refine ⟨?_, ?_, ?_, ?_, ?_, ?_, ?_, ?_, ?_, ?_, ?_, ?_, ?_, ?_⟩
  · simp [loadAuthConfigFromEnv, envPresent]
  · simp [loadAuthConfigFromEnv, envPresent, ha2]
  · simp [loadAuthConfigFromEnv, envPresent, ha2, hb2]
  · simp [loadAuthConfigFromEnv, envPresent, ha2, hb2, hc2]
  · simp [createClientFromEnv, envPresent]
  · simp [createClientFromEnv, envPresent, hb2]
  · simp [createClientFromEnv, envPresent, hc2]
  · simp [createClientFromEnv, envPresent, hd2]
  · simp [createClientFromEnv, envPresent, he2]
  · exact ⟨"Missing required environment variables. Please set: ",
      ", APPLE_ADS_TEAM_ID, APPLE_ADS_KEY_ID, APPLE_ADS_PRIVATE_KEY_PATH, APPLE_ADS_ORG_ID",
      by decide⟩
  · exact ⟨"Missing required environment variables. Please set: APPLE_ADS_CLIENT_ID, ",
      ", APPLE_ADS_KEY_ID, APPLE_ADS_PRIVATE_KEY_PATH, APPLE_ADS_ORG_ID",
      by decide⟩
  · exact ⟨"Missing required environment variables. Please set: APPLE_ADS_CLIENT_ID, APPLE_ADS_TEAM_ID, ",
      ", APPLE_ADS_PRIVATE_KEY_PATH, APPLE_ADS_ORG_ID",
      by decide⟩
  · exact ⟨"Missing required environment variables. Please set: APPLE_ADS_CLIENT_ID, APPLE_ADS_TEAM_ID, APPLE_ADS_KEY_ID, ",
      ", APPLE_ADS_ORG_ID", by decide⟩
  · exact ⟨"Missing required environment variables. Please set: APPLE_ADS_CLIENT_ID, APPLE_ADS_TEAM_ID, APPLE_ADS_KEY_ID, APPLE_ADS_PRIVATE_KEY_PATH, ",
      "", by decide⟩

/-- Witness for C7 at a concrete input: every present variable set to x. -/
theorem config_error_names_missing_field_witness :
    loadAuthConfigFromEnv ⟨none, some "x", some "x", some "x", some "x"⟩ =
      { result := .error "APPLE_ADS_CLIENT_ID environment variable is required",
        httpCalls := 0 } ∧
      createClientFromEnv ⟨some "x", some "x", some "x", some "x", none⟩ =
        { result := .error missingEnvMessage, httpCalls := 0 } :=
  ⟨(config_error_names_missing_field "x" "x" "x" "x" "x"
      (by decide) (by decide) (by decide) (by decide) (by decide)).1,
    (config_error_names_missing_field "x" "x" "x" "x" "x"
      (by decide) (by decide) (by decide) (by decide) (by decide)).2.2.2.2.2.2.2.2.1⟩

end AsaMcp

namespace AsaMcp

/-! ## Report parameter normalization (src/tools/reports module)

buildReportParams and the four report tool handlers, which all pass their
parsed arguments through the same normalizer before calling the client. -/

/-- Sort direction of an orderBy clause. -/
inductive SortOrder where
  | ASCENDING
  | DESCENDING
deriving DecidableEq, Repr

/-- An orderBy clause of a report selector. -/
structure OrderByClause where
  field : String
  sortOrder : SortOrder
deriving DecidableEq, Repr

/-- A filter condition of a report selector. -/
structure Condition where
  field : String
  operator : String
  values : List String
deriving DecidableEq, Repr

/-- Pagination of a built selector. -/
structure Pagination where
  offset : Nat
  limit : Nat
deriving DecidableEq, Repr

/-- The optional selector of the caller's report arguments
(reportSelectorSchema). -/
structure ReportSelectorArgs where
  conditions : Option (List Condition)
  orderBy : Option OrderByClause
  limit : Option Nat
  offset : Option Nat
deriving DecidableEq, Repr

/-- Report time granularity. -/
inductive Granularity where
  | HOURLY
  | DAILY
  | WEEKLY
  | MONTHLY
deriving DecidableEq, Repr

/-- The caller's report arguments common to all four levels
(baseReportSchema); optional fields the caller may omit are Options. -/
structure BaseReportArgs where
  startTime : String
  endTime : String
  selector : Option ReportSelectorArgs
  groupBy : Option (List String)
  timeZone : Option String
  granularity : Option Granularity
  returnRowTotals : Option Bool
  returnGrandTotals : Option Bool
  returnRecordsWithNoMetrics : Option Bool
deriving DecidableEq, Repr

/-- The selector object buildReportParams constructs: pagination and
orderBy are always present, conditions only when the caller supplied
them. -/
structure BuiltSelector where
  pagination : Pagination
  orderBy : List OrderByClause
  conditions : Option (List Condition)
deriving DecidableEq, Repr

/-- The request body buildReportParams returns. -/
structure ReportParams where
  startTime : String
  endTime : String
  selector : BuiltSelector
  returnRowTotals : Bool
  returnGrandTotals : Bool
  returnRecordsWithNoMetrics : Bool
  groupBy : Option (List String)
  timeZone : Option String
  granularity : Option Granularity
deriving DecidableEq, Repr

/-- The default orderBy clause: descending by impressions. -/
def defaultOrderBy : List OrderByClause :=
  [{ field := "impressions", sortOrder := .DESCENDING }]

/-- buildReportParams of the reports tool module (lines 745 to 791):
pagination defaults to offset 0 and limit 1000; orderBy defaults to
descending by impressions, and a caller-supplied clause is wrapped as a
one-element list; without a granularity returnRowTotals is forced to true,
with a granularity returnGrandTotals is forced to false; the remaining
optional fields pass through. -/
def buildReportParams (args : BaseReportArgs) : ReportParams :=
  let sel := args.selector
  let selector : BuiltSelector :=
    { pagination :=
        { offset := (sel.bind (fun s => s.offset)).getD 0,
          limit := (sel.bind (fun s => s.limit)).getD 1000 },
      orderBy :=
        match sel.bind (fun s => s.orderBy) with
        | some ob => [ob]
        | none => defaultOrderBy,
      conditions := sel.bind (fun s => s.conditions) }
  let rowTotals0 := args.returnRowTotals.getD false
  let grandTotals0 := args.returnGrandTotals.getD false
  { startTime := args.startTime
    endTime := args.endTime
    selector := selector
    returnRowTotals := if args.granularity.isNone then true else rowTotals0
    returnGrandTotals := if args.granularity.isNone then grandTotals0 else false
    returnRecordsWithNoMetrics := args.returnRecordsWithNoMetrics.getD false
    groupBy := args.groupBy
    timeZone := args.timeZone
    granularity := args.granularity }

/-- Arguments of the ad-group report tool: the base arguments extended with
a campaign id (getAdGroupReportsSchema). -/
structure AdGroupReportArgs where
  campaignId : Nat
  base : BaseReportArgs
deriving DecidableEq, Repr

/-- Arguments of the keyword report tool (getKeywordReportsSchema). -/
structure KeywordReportArgs where
  campaignId : Nat
  base : BaseReportArgs
deriving DecidableEq, Repr

/-- Arguments of the search-term report tool
(getSearchTermReportsSchema). -/
structure SearchTermReportArgs where
  campaignId : Nat
  base : BaseReportArgs
deriving DecidableEq, Repr

/-- The request body handleGetCampaignReports sends (line 797): the
normalized parameters. -/
def handleGetCampaignReportsParams (args : BaseReportArgs) : ReportParams :=
  buildReportParams args

/-- The request body handleGetAdGroupReports sends (line 806). -/
def handleGetAdGroupReportsParams (args : AdGroupReportArgs) : ReportParams :=
  buildReportParams args.base

/-- The request body handleGetKeywordReports sends (line 815). -/
def handleGetKeywordReportsParams (args : KeywordReportArgs) : ReportParams :=
  buildReportParams args.base

/-- The request body handleGetSearchTermReports sends (line 824). -/
def handleGetSearchTermReportsParams (args : SearchTermReportArgs) : ReportParams :=
  buildReportParams args.base

end AsaMcp

namespace AsaMcp

/-! ## Claims about report normalization -/

/-- C2: all four report levels build their request through the same
normalizer, which forces returnRowTotals to true when no granularity is
requested (whatever the caller passed) and forces returnGrandTotals to
false when a granularity is requested (whatever the caller passed). -/
theorem buildReportParams_totals_normalization (args : BaseReportArgs)
    (cid : Nat) :
    handleGetCampaignReportsParams args = buildReportParams args ∧
      handleGetAdGroupReportsParams ⟨cid, args⟩ = buildReportParams args ∧
      handleGetKeywordReportsParams ⟨cid, args⟩ = buildReportParams args ∧
      handleGetSearchTermReportsParams ⟨cid, args⟩ = buildReportParams args ∧
      (args.granularity = none →
        (buildReportParams args).returnRowTotals = true) ∧
      (∀ g, args.granularity = some g →
        (buildReportParams args).returnGrandTotals = false) := by
  refine ⟨rfl, rfl, rfl, rfl, ?_, ?_⟩
  · intro h
    simp [buildReportParams, h]
  · intro g h
    simp [buildReportParams, h]

/-- Witness for C2 at concrete inputs: without granularity the caller's
explicit returnRowTotals false is overridden to true; with granularity
DAILY the caller's explicit returnGrandTotals true is overridden to
false. -/
theorem buildReportParams_totals_normalization_witness :
    (buildReportParams
        { startTime := "2024-01-01", endTime := "2024-01-31",
          selector := none, groupBy := none, timeZone := none,
          granularity := none, returnRowTotals := some false,
          returnGrandTotals := some true,
          returnRecordsWithNoMetrics := none }).returnRowTotals = true ∧
      (buildReportParams
        { startTime := "2024-01-01", endTime := "2024-01-31",
          selector := none, groupBy := none, timeZone := none,
          granularity := some .DAILY, returnRowTotals := some false,
          returnGrandTotals := some true,
          returnRecordsWithNoMetrics := none }).returnGrandTotals = false :=
  ⟨(buildReportParams_totals_normalization
      { startTime := "2024-01-01", endTime := "2024-01-31",
        selector := none, groupBy := none, timeZone := none,
        granularity := none, returnRowTotals := some false,
        returnGrandTotals := some true,
        returnRecordsWithNoMetrics := none } 7).2.2.2.2.1 rfl,
    (buildReportParams_totals_normalization
      { startTime := "2024-01-01", endTime := "2024-01-31",
        selector := none, groupBy := none, timeZone := none,
        granularity := some .DAILY, returnRowTotals := some false,
        returnGrandTotals := some true,
        returnRecordsWithNoMetrics := none } 7).2.2.2.2.2 .DAILY rfl⟩

/-- C8: at every report level, when the caller supplies no orderBy the
built selector orders descending by impressions, and a caller-supplied
clause is used instead, wrapped as a one-element list. -/
theorem buildReportParams_orderBy_default (args : BaseReportArgs)
    (cid : Nat) :
    handleGetCampaignReportsParams args = buildReportParams args ∧
      handleGetAdGroupReportsParams ⟨cid, args⟩ = buildReportParams args ∧
      handleGetKeywordReportsParams ⟨cid, args⟩ = buildReportParams args ∧
      handleGetSearchTermReportsParams ⟨cid, args⟩ = buildReportParams args ∧
      (args.selector.bind (fun s => s.orderBy) = none →
        (buildReportParams args).selector.orderBy =
          [{ field := "impressions", sortOrder := .DESCENDING }]) ∧
      (∀ ob, args.selector.bind (fun s => s.orderBy) = some ob →
        (buildReportParams args).selector.orderBy = [ob]) := by
  refine ⟨rfl, rfl, rfl, rfl, ?_, ?_⟩
  · intro h
    simp [buildReportParams, h, defaultOrderBy]
  · intro ob h
    simp [buildReportParams, h]

/-- Witness for C8 at concrete inputs: a request without any selector gets
the impressions-descending default, and a request whose selector orders
ascending by taps keeps that clause as a one-element list. -/
theorem buildReportParams_orderBy_default_witness :
    (buildReportParams
        { startTime := "2024-01-01", endTime := "2024-01-31",
          selector := none, groupBy := none, timeZone := none,
          granularity := none, returnRowTotals := none,
          returnGrandTotals := none,
          returnRecordsWithNoMetrics := none }).selector.orderBy =
      [{ field := "impressions", sortOrder := .DESCENDING }] ∧
      (buildReportParams
        { startTime := "2024-01-01", endTime := "2024-01-31",
          selector := some
            { conditions := none,
              orderBy := some { field := "taps", sortOrder := .ASCENDING },
              limit := none, offset := none },
          groupBy := none, timeZone := none,
          granularity := none, returnRowTotals := none,
          returnGrandTotals := none,
          returnRecordsWithNoMetrics := none }).selector.orderBy =
      [{ field := "taps", sortOrder := .ASCENDING }] :=
  ⟨(buildReportParams_orderBy_default
      { startTime := "2024-01-01", endTime := "2024-01-31",
        selector := none, groupBy := none, timeZone := none,
        granularity := none, returnRowTotals := none,
        returnGrandTotals := none,
        returnRecordsWithNoMetrics := none } 7).2.2.2.2.1 rfl,
    (buildReportParams_orderBy_default
      { startTime := "2024-01-01", endTime := "2024-01-31",
        selector := some
          { conditions := none,
            orderBy := some { field := "taps", sortOrder := .ASCENDING },
            limit := none, offset := none },
        groupBy := none, timeZone := none,
        granularity := none, returnRowTotals := none,
        returnGrandTotals := none,
        returnRecordsWithNoMetrics := none } 7).2.2.2.2.2
      { field := "taps", sortOrder := .ASCENDING } rfl⟩

end AsaMcp
